import Mathlib

/-
Shallow embedding of `Virtual_CPU.py`: a small text-instruction virtual CPU
with a bank of registers, two memories (program and stack), two condition
flags, a stack pointer and an instruction counter.

Python objects are modelled as a single immutable state record that is
threaded explicitly; Python exceptions (all fatal in this program) are
modelled with `Except String`, the string mirroring the raised message
(punctuation of the messages is simplified, their data content is kept).
-/

namespace VCPU

/--
A value held in a memory cell, a register, or a literal operand.
Python cells hold `Union[str, int, float]` and may in principle hold `None`
(the sentinel tested by `CPU.execute_instruction`).  Python floats are kept
symbolic (constructor `floatLit` carries the source token) because no claim
computes with them; they only arise from `#` literals that fail integer
parsing.
-/
inductive Value
| int (n : Int)
| str (s : String)
| floatLit (raw : String)
| none
deriving DecidableEq, Repr

/-- `Memory.__init__`: fixed size, cells initialized to the integer 0. -/
structure Memory where
  size : Nat
  mem : List Value
deriving DecidableEq, Repr

namespace Memory

/-- `Memory(size)`: allocate `size` cells, each holding the integer 0. -/
def init (size : Nat) : Memory :=
  { size := size, mem := List.replicate size (Value.int 0) }

/-- Error text of `Memory.set_mem` / `Memory.get_mem` for a negative address. -/
def locLowMsg (location : Int) : String :=
  "location (" ++ toString location ++ ") is less than 0"

/-- Error text of `Memory.set_mem` / `Memory.get_mem` for an address past the end. -/
def locHighMsg (location : Int) (size : Nat) : String :=
  "location (" ++ toString location ++ ") is greater than memory size (" ++ toString size ++ ")"

/-- `Memory.set_mem`: bounds check as in the source, then store. -/
def set_mem (m : Memory) (location : Int) (value : Value) : Except String Memory :=
  if location < 0 then .error (locLowMsg location)
  else if location > (m.size : Int) - 1 then .error (locHighMsg location m.size)
  else .ok { m with mem := m.mem.set location.toNat value }

/-- `Memory.get_mem`: bounds check as in the source, then read. -/
def get_mem (m : Memory) (location : Int) : Except String Value :=
  if location < 0 then .error (locLowMsg location)
  else if location > (m.size : Int) - 1 then .error (locHighMsg location m.size)
  else .ok (m.mem.getD location.toNat (Value.int 0))

end Memory

/--
A resolved operand, the result of `CPU.decode_operand`:
a read-only literal (`Literal`), a validated register index (`Register`),
a memory cell of program memory (`MemoryOperand`), the stack pointer
(`StackPointer`) or the instruction counter (the `IC` register).
-/
inductive OperandRef
| lit (v : Value)
| reg (i : Nat)
| memCell (addr : Int)
| sp
| ic
deriving DecidableEq, Repr

/--
The processor state: the fields of `CPU.__init__` (both memories, the
register bank, `IC`, the two flags, `SP` with its recorded maximum, the
label table) plus the list of values printed by `out` (the output sink).
`sp` and `ic` are integers: the Python attributes are untyped, but every
claim concerns integer-valued `SP`/`IC`, and a non-integer stored there
breaks the very next arithmetic use of it in the source.
-/
structure CPUState where
  memory : Memory
  stack : Memory
  registers : List Value
  ic : Int
  equalFlag : Bool
  greaterFlag : Bool
  sp : Int
  spMax : Int
  labels : List (String × Int)
  output : List Value
deriving DecidableEq, Repr

namespace CPU

/-- `CPU.__init__`: zeroed registers, `IC = 0`, flags false, `SP = stack.size - 1`
with `maxVal` recorded equal to it, empty label table. -/
def init (registers : Nat) (memory stack : Memory) : CPUState :=
  { memory := memory
    stack := stack
    registers := List.replicate registers (Value.int 0)
    ic := 0
    equalFlag := false
    greaterFlag := false
    sp := (stack.size : Int) - 1
    spMax := (stack.size : Int) - 1
    labels := []
    output := [] }

end CPU

namespace StackPointer

/-- Error text of `StackPointer.push`. -/
def overflowMsg (v : Int) : String :=
  "Stack overflow: stack pointer is " ++ toString v

/-- Error text of `StackPointer.pop`. -/
def mismatchMsg (maxVal v : Int) : String :=
  "Stack mismatch: max value is " ++ toString maxVal ++ ", SP is " ++ toString v

/-- `StackPointer.push`: decrement, fatal overflow below 0. -/
def push (st : CPUState) : Except String CPUState :=
  if st.sp - 1 < 0 then .error (overflowMsg (st.sp - 1))
  else .ok { st with sp := st.sp - 1 }

/-- `StackPointer.pop`: increment, fatal mismatch above the recorded maximum. -/
def pop (st : CPUState) : Except String CPUState :=
  if st.sp + 1 > st.spMax then .error (mismatchMsg st.spMax (st.sp + 1))
  else .ok { st with sp := st.sp + 1 }

end StackPointer

/-- Error text of `Literal.set_value` (the class is read-only). -/
def readOnlyMsg : String := "This class is Read-Only"

/-- `Operand.get_value` for each resolved operand kind, reading from the state. -/
def getValue (st : CPUState) : OperandRef → Except String Value
| .lit v => .ok v
| .reg i => .ok (st.registers.getD i (Value.int 0))
| .memCell a => st.memory.get_mem a
| .sp => .ok (Value.int st.sp)
| .ic => .ok (Value.int st.ic)

/-- `Operand.set_value` for each resolved operand kind: literals are read-only,
registers and memory cells are written in place, `SP` and `IC` accept the
integer values every claim concerns (see `CPUState`). -/
def setValue (st : CPUState) (r : OperandRef) (v : Value) : Except String CPUState :=
  match r with
  | .lit _ => .error readOnlyMsg
  | .reg i => .ok { st with registers := st.registers.set i v }
  | .memCell a => (st.memory.set_mem a v).map (fun m => { st with memory := m })
  | .sp =>
    match v with
    | .int n => .ok { st with sp := n }
    | _ => .error "TypeError: SP arithmetic needs an int"
  | .ic =>
    match v with
    | .int n => .ok { st with ic := n }
    | _ => .error "TypeError: IC arithmetic needs an int"

/-- Error text of a Python TypeError on a binary arithmetic operator. -/
def typeErrorMsg : String := "TypeError: unsupported operand types"

/-- Error text of a Python ZeroDivisionError. -/
def zeroDivMsg : String := "ZeroDivisionError: integer division or modulo by zero"

/-- Python `+` on the modelled values: int addition or string concatenation;
symbolic floats and `None` raise a TypeError. -/
def pyAdd : Value → Value → Except String Value
| .int a, .int b => .ok (.int (a + b))
| .str a, .str b => .ok (.str (a ++ b))
| _, _ => .error typeErrorMsg

/-- Python `-` on the modelled values: defined on ints only. -/
def pySub : Value → Value → Except String Value
| .int a, .int b => .ok (.int (a - b))
| _, _ => .error typeErrorMsg

/-- Python `*` on the modelled values: int multiplication (the string
replication forms are not modelled, no claim touches them). -/
def pyMul : Value → Value → Except String Value
| .int a, .int b => .ok (.int (a * b))
| _, _ => .error typeErrorMsg

/-- Python `//` on the modelled values: floor division on ints,
fatal ZeroDivisionError on a zero divisor. -/
def pyFloorDiv : Value → Value → Except String Value
| .int a, .int b => if b = 0 then .error zeroDivMsg else .ok (.int (Int.fdiv a b))
| _, _ => .error typeErrorMsg

/-- First index at which `sep` occurs as a contiguous sublist of `l`. -/
def findSub : List Char → List Char → Option Nat
| [], sep => if sep.isEmpty then some 0 else none
| c :: t, sep => if sep.isPrefixOf (c :: t) then some 0 else (findSub t sep).map (· + 1)

/-- Python `s.split(sep, 1)`: the text before the first occurrence of `sep`,
and the remainder after it when `sep` occurs at all. -/
def splitOnce (s sep : String) : String × Option String :=
  match findSub s.data sep.data with
  | .none => (s, .none)
  | some i => (String.mk (s.data.take i), some (String.mk (s.data.drop (i + sep.data.length))))

/-- Python `s[:1]`. -/
def strTake1 (s : String) : String := String.mk (s.data.take 1)

/-- Python `s[1:]`. -/
def strDrop1 (s : String) : String := String.mk (s.data.drop 1)

/-- Python `s[:-1]`. -/
def strDropLast (s : String) : String := String.mk s.data.dropLast

/-- Decimal value of a digit list. -/
def digitsToNat (l : List Char) : Nat :=
  l.foldl (fun a c => a * 10 + (c.toNat - 48)) 0

/-- Python `int(s)` as used by `decode_operand`: optional sign followed by
digits (the whitespace and underscore forms Python also accepts are not
modelled; no claim involves them). -/
def pyParseInt (s : String) : Option Int :=
  match s.data with
  | '-' :: rest =>
    if rest.isEmpty || !rest.all Char.isDigit then .none
    else some (-(digitsToNat rest : Int))
  | '+' :: rest =>
    if rest.isEmpty || !rest.all Char.isDigit then .none
    else some (digitsToNat rest : Int)
  | l =>
    if l.isEmpty || !l.all Char.isDigit then .none
    else some (digitsToNat l : Int)

/-- Digit run with an optional decimal point somewhere in it, at least one digit. -/
def mantissaAccepts (l : List Char) : Bool :=
  if l.contains '.' then
    let intPart := l.takeWhile (fun c => c ≠ '.')
    let fracPart := (l.dropWhile (fun c => c ≠ '.')).drop 1
    (!(intPart.isEmpty && fracPart.isEmpty)) && intPart.all Char.isDigit && fracPart.all Char.isDigit
  else !l.isEmpty && l.all Char.isDigit

/-- Exponent digits with an optional sign, at least one digit. -/
def expAccepts (l : List Char) : Bool :=
  let l2 := match l with | '+' :: r => r | '-' :: r => r | r => r
  !l2.isEmpty && l2.all Char.isDigit

/-- Recognizer for the token syntax Python `float(s)` accepts: optional sign,
mantissa with optional decimal point, optional exponent (the `inf` and `nan`
forms are not modelled; float values stay symbolic, see `Value.floatLit`). -/
def pyFloatAccepts (s : String) : Bool :=
  let l := match s.data with | '+' :: r => r | '-' :: r => r | r => r
  if l.any (fun c => c = 'e' || c = 'E') then
    let m := l.takeWhile (fun c => !(c = 'e' || c = 'E'))
    let e := (l.dropWhile (fun c => !(c = 'e' || c = 'E'))).drop 1
    mantissaAccepts m && expAccepts e
  else mantissaAccepts l

namespace Instructions

/-- `Instructions.inc`: `op1.set_value(op1.get_value() + 1)`. -/
def inc (st : CPUState) (op1 : OperandRef) : Except String CPUState := do
  let v ← getValue st op1
  let v2 ← pyAdd v (.int 1)
  setValue st op1 v2

/-- `Instructions.dec`: `op1.set_value(op1.get_value() - 1)`. -/
def dec (st : CPUState) (op1 : OperandRef) : Except String CPUState := do
  let v ← getValue st op1
  let v2 ← pySub v (.int 1)
  setValue st op1 v2

/-- `Instructions.cmp`: `val = a - b`; Equal becomes `0 == val`, Greater
becomes `0 < val` (a Python comparison of 0 with a non-int is False, but
`pySub` only ever yields an int, so the catch-all arms are unreachable). -/
def cmp (st : CPUState) (op1 op2 : OperandRef) : Except String CPUState := do
  let v1 ← getValue st op1
  let v2 ← getValue st op2
  let val ← pySub v1 v2
  let eq := match val with | .int n => decide (0 = n) | _ => false
  let gt := match val with | .int n => decide (0 < n) | _ => false
  .ok { st with equalFlag := eq, greaterFlag := gt }

/-- `Instructions.out`: print the value; modelled by appending to the output trace. -/
def out (st : CPUState) (op1 : OperandRef) : Except String CPUState := do
  let v ← getValue st op1
  .ok { st with output := st.output ++ [v] }

/-- `Instructions.add`. -/
def add (st : CPUState) (op1 op2 : OperandRef) : Except String CPUState := do
  let v1 ← getValue st op1
  let v2 ← getValue st op2
  let r ← pyAdd v1 v2
  setValue st op1 r

/-- `Instructions.sub`. -/
def sub (st : CPUState) (op1 op2 : OperandRef) : Except String CPUState := do
  let v1 ← getValue st op1
  let v2 ← getValue st op2
  let r ← pySub v1 v2
  setValue st op1 r

/-- `Instructions.mul`. -/
def mul (st : CPUState) (op1 op2 : OperandRef) : Except String CPUState := do
  let v1 ← getValue st op1
  let v2 ← getValue st op2
  let r ← pyMul v1 v2
  setValue st op1 r

/-- `Instructions.div`: the division itself raises on a zero divisor, before
`op1.set_value` is reached, so on that path the left operand is not written. -/
def div (st : CPUState) (op1 op2 : OperandRef) : Except String CPUState := do
  let v1 ← getValue st op1
  let v2 ← getValue st op2
  let r ← pyFloorDiv v1 v2
  setValue st op1 r

/-- `Instructions.jmp`: `IC.set_value(op1.get_value())`. -/
def jmp (st : CPUState) (op1 : OperandRef) : Except String CPUState := do
  let v ← getValue st op1
  setValue st .ic v

/-- `Instructions.je`: jump iff Equal. -/
def je (st : CPUState) (op1 : OperandRef) : Except String CPUState :=
  if st.equalFlag then jmp st op1 else .ok st

/-- `Instructions.jne`: jump iff not Equal. -/
def jne (st : CPUState) (op1 : OperandRef) : Except String CPUState :=
  if !st.equalFlag then jmp st op1 else .ok st

/-- `Instructions.jg`: jump iff Greater and not Equal. -/
def jg (st : CPUState) (op1 : OperandRef) : Except String CPUState :=
  if st.greaterFlag && !st.equalFlag then jmp st op1 else .ok st

/-- `Instructions.jl`: jump iff not Greater and not Equal. -/
def jl (st : CPUState) (op1 : OperandRef) : Except String CPUState :=
  if !st.greaterFlag && !st.equalFlag then jmp st op1 else .ok st

/-- `Instructions.jle`: jump iff not Greater or Equal. -/
def jle (st : CPUState) (op1 : OperandRef) : Except String CPUState :=
  if !st.greaterFlag || st.equalFlag then jmp st op1 else .ok st

/-- `Instructions.jge`: jump iff Greater or Equal. -/
def jge (st : CPUState) (op1 : OperandRef) : Except String CPUState :=
  if st.greaterFlag || st.equalFlag then jmp st op1 else .ok st

/-- `Instructions.push`: `SP.push()` first, then the stack write at the new SP
(Python evaluates `SP.get_value()` after the decrement). -/
def push (st : CPUState) (op1 : OperandRef) : Except String CPUState := do
  let st1 ← StackPointer.push st
  let v ← getValue st1 op1
  let stk ← st1.stack.set_mem st1.sp v
  .ok { st1 with stack := stk }

/-- `Instructions.pop`: read the cell at SP into the operand, then `SP.pop()`. -/
def pop (st : CPUState) (op1 : OperandRef) : Except String CPUState := do
  let v ← st.stack.get_mem st.sp
  let st1 ← setValue st op1 v
  StackPointer.pop st1

/-- `Instructions.load` calls `self.cpu.set_mem(...)`, but class `CPU` defines
no `set_mem` method: in Python the attribute lookup raises AttributeError
before the arguments are evaluated. -/
def load (_st : CPUState) (_op1 _op2 : OperandRef) : Except String CPUState :=
  .error "AttributeError: CPU object has no attribute set_mem"

/-- `Instructions.call`: `push(Literal(IC + 1))` then `jmp(op1)`. -/
def call (st : CPUState) (op1 : OperandRef) : Except String CPUState := do
  let st1 ← push st (.lit (.int (st.ic + 1)))
  jmp st1 op1

/-- `Instructions.ret`: `pop(IC)`. -/
def ret (st : CPUState) : Except String CPUState :=
  pop st .ic

/-- `Instructions.set`: `op1.set_value(op2.get_value())`. -/
def set (st : CPUState) (op1 op2 : OperandRef) : Except String CPUState := do
  let v ← getValue st op2
  setValue st op1 v

/-- `Instructions.nop`: no effect. -/
def nop (st : CPUState) : Except String CPUState :=
  .ok st

end Instructions

/-- A bound instruction handler, tagged by arity.  This mirrors what
`getattr` plus `getfullargspec` extract in `CPU.decode_instruction`: the
handler object and its declared operand count.  One-operand and two-operand
handlers always return Python `None`, which the loop maps to "continue";
zero-operand handlers may signal halt, so they return the continue flag. -/
inductive Handler
| h0 (f : CPUState → Except String (CPUState × Bool))
| h1 (f : CPUState → OperandRef → Except String CPUState)
| h2 (f : CPUState → OperandRef → OperandRef → Except String CPUState)

/-- `getattr(self.instructions, name)`: the instruction table.  `end` returns
Python `False` (halt); `ret` and `nop` return `None` (continue). -/
def getattrInstr : String → Option Handler
| "inc" => some (.h1 Instructions.inc)
| "dec" => some (.h1 Instructions.dec)
| "cmp" => some (.h2 Instructions.cmp)
| "out" => some (.h1 Instructions.out)
| "add" => some (.h2 Instructions.add)
| "sub" => some (.h2 Instructions.sub)
| "jmp" => some (.h1 Instructions.jmp)
| "je" => some (.h1 Instructions.je)
| "jne" => some (.h1 Instructions.jne)
| "jg" => some (.h1 Instructions.jg)
| "jl" => some (.h1 Instructions.jl)
| "jle" => some (.h1 Instructions.jle)
| "jge" => some (.h1 Instructions.jge)
| "mul" => some (.h2 Instructions.mul)
| "div" => some (.h2 Instructions.div)
| "push" => some (.h1 Instructions.push)
| "pop" => some (.h1 Instructions.pop)
| "load" => some (.h2 Instructions.load)
| "call" => some (.h1 Instructions.call)
| "ret" => some (.h0 (fun st => (Instructions.ret st).map (fun s => (s, true))))
| "set" => some (.h2 Instructions.set)
| "end" => some (.h0 (fun st => .ok (st, false)))
| "nop" => some (.h0 (fun st => .ok (st, true)))
| _ => .none

namespace CPU

/-- Error text of `decode_operand` for a register token whose index text is
not an integer. -/
def badIntMsg (opValue : String) : String :=
  "cannot convert \"" ++ opValue ++ "\" to an int"

/-- Error text of `decode_operand` for an out-of-range register index. -/
def badRegisterMsg (n : Int) : String :=
  "you tried to access register number \"" ++ toString n ++ "\" but that is invalid"

/-- Error text of `decode_operand` for a malformed `#` literal. -/
def badLiteralMsg (opValue : String) : String :=
  "expected \"" ++ opValue ++ "\" to be an int or float"

/-- Error text of the uncaught `ValueError` from `int(op_value)` in the `M`
branch of `decode_operand`. -/
def memAddrValueErrorMsg (opValue : String) : String :=
  "ValueError: invalid literal for int: \"" ++ opValue ++ "\""

/-- Error text of `decode_operand` for a token matching no rule and no label.
The message names the offending token, as in the source. -/
def cantDecodeMsg (op : String) : String :=
  "Cant decode operand \"" ++ op ++ "\". There is no label with that name."

/-- Error text of `decode_instruction` for an unknown mnemonic. -/
def unknownInstructionMsg (name : String) : String :=
  "you have attempted to call a nonexistent instruction: \"" ++ name ++ "\""

/-- Error text of the uncaught Python IndexError raised when an instruction
line carries fewer operand tokens than the mnemonic arity requires. -/
def indexErrorMsg : String := "IndexError: list index out of range"

/-- Error text of the uncaught Python AttributeError raised when `split` is
called on a non-string memory cell fetched as an instruction. -/
def attrSplitMsg : String := "AttributeError: object has no attribute split"

/-- Python `op in self.labels` plus `self.labels[op]` on the label table. -/
def lookupLabel (labels : List (String × Int)) (s : String) : Option Int :=
  (labels.find? (fun p => p.1 = s)).map (fun p => p.2)

/-- `CPU.decode_operand`: label table first, then the reserved tokens `SP`
and `IC`, then the `R`, `#`, `"`, `M` first-character rules, else a fatal
unrecognized-operand error naming the token. -/
def decode_operand (st : CPUState) (op : String) : Except String OperandRef :=
  match lookupLabel st.labels op with
  | some labelLocation => .ok (.lit (.int labelLocation))
  | .none =>
    if op = "SP" then .ok .sp
    else if op = "IC" then .ok .ic
    else
      let opType := strTake1 op
      let opValue := strDrop1 op
      if opType = "R" then
        match pyParseInt opValue with
        | .none => .error (badIntMsg opValue)
        | some registerNumber =>
          if registerNumber < 0 ∨ registerNumber > (st.registers.length : Int) - 1 then
            .error (badRegisterMsg registerNumber)
          else .ok (.reg registerNumber.toNat)
      else if opType = "#" then
        match pyParseInt opValue with
        | some n => .ok (.lit (.int n))
        | .none =>
          if pyFloatAccepts opValue then .ok (.lit (.floatLit opValue))
          else .error (badLiteralMsg opValue)
      else if opType = "\"" then .ok (.lit (.str (strDropLast opValue)))
      else if opType = "M" then
        match pyParseInt opValue with
        | some n => .ok (.memCell n)
        | .none => .error (memAddrValueErrorMsg opValue)
      else .error (cantDecodeMsg op)

/-- `CPU.decode_instruction`: split the line at the first space into mnemonic
and remainder, look the mnemonic up, split the remainder into as many operand
tokens as the arity requires (`", "`-separated, first split point only),
resolve each operand, dispatch, and interpret the result (`None` continues,
`False` halts). -/
def decode_instruction (st : CPUState) (instruction_string : String) :
    Except String (CPUState × Bool) :=
  let split := splitOnce instruction_string " "
  match getattrInstr split.1 with
  | .none => .error (unknownInstructionMsg split.1)
  | some (.h2 f) =>
    match split.2 with
    | .none => .error indexErrorMsg
    | some rest =>
      match splitOnce rest ", " with
      | (_, .none) => .error indexErrorMsg
      | (o1s, some o2s) => do
        let op1 ← decode_operand st o1s
        let op2 ← decode_operand st o2s
        let st1 ← f st op1 op2
        .ok (st1, true)
  | some (.h1 f) =>
    match split.2 with
    | .none => .error indexErrorMsg
    | some rest => do
      let op1 ← decode_operand st rest
      let st1 ← f st op1
      .ok (st1, true)
  | some (.h0 f) => f st

/-- `CPU.execute_instruction`: fetch the cell at `IC`; a `None` cell returns
the halt signal; any other cell is handed to `decode_instruction`, whose
first act is `instruction_string.split(...)` — on a non-string cell (such as
the integer 0 every never-written cell holds) that attribute access raises a
fatal AttributeError. -/
def execute_instruction (st : CPUState) : Except String (CPUState × Bool) := do
  let instr ← st.memory.get_mem st.ic
  match instr with
  | .none => .ok (st, false)
  | .str s => decode_instruction st s
  | .int _ => .error attrSplitMsg
  | .floatLit _ => .error attrSplitMsg

/-- The IC adjustment at the bottom of the `while` loop in
`CPU.execute_program`: increment IC by 1 only when it still equals the value
it had when the instruction was fetched. -/
def loopAdjust (icVal : Int) (st : CPUState) : CPUState :=
  if st.ic = icVal then { st with ic := st.ic + 1 } else st

/-- One iteration of the `while` loop of `CPU.execute_program`: record IC,
execute one instruction, and on continuation apply `loopAdjust`; on the halt
signal the loop exits without adjusting. -/
def loopStep (st : CPUState) : Except String (Bool × CPUState) := do
  let r ← execute_instruction st
  if r.2 then .ok (true, loopAdjust st.ic r.1) else .ok (false, r.1)

/-- Result of running the loop with bounded fuel (the Python loop is
unbounded; fuel only serves totality). -/
inductive RunResult
| halted (st : CPUState)
| outOfFuel (st : CPUState)
deriving DecidableEq, Repr

/-- Iterate `loopStep` for at most `fuel` iterations. -/
def run : Nat → CPUState → Except String RunResult
| 0, st => .ok (.outOfFuel st)
| fuel + 1, st => do
  let r ← loopStep st
  if r.1 then run fuel r.2 else .ok (.halted r.2)

/-- `CPU.execute_program`: set `IC` to the entry point and run the loop. -/
def execute_program (fuel : Nat) (st : CPUState) (entry_point : Int) :
    Except String RunResult :=
  run fuel { st with ic := entry_point }

end CPU

/-- A freshly constructed small machine: 2 registers, program and stack
memories of 4 cells each (so SP = spMax = 3), used as the concrete state of
several witnesses. -/
def sampleState : CPUState := CPU.init 2 (Memory.init 4) (Memory.init 4)

/-- Bind on a successful `Except` computation steps to its continuation. -/
theorem ok_bind {α β : Type} (a : α) (f : α → Except String β) :
    (Except.ok a >>= f) = f a := rfl

/-- Bind on a failed `Except` computation propagates the error. -/
theorem error_bind {α β : Type} (e : String) (f : α → Except String β) :
    ((Except.error e : Except String α) >>= f) = .error e := rfl

/-- C2: for all operand values a and b, executing `cmp a, b` sets the Equal
flag to `decide (a - b = 0)` and the Greater flag to `decide (a - b > 0)`:
Equal holds iff the difference is zero and Greater holds iff it is strictly
positive, so `a = b` sets Equal and clears Greater, `a > b` sets Greater and
clears Equal, and `a < b` clears both. -/
theorem cmp_flag_semantics (st : CPUState) (a b : Int) :
    Instructions.cmp st (.lit (.int a)) (.lit (.int b)) =
      .ok { st with equalFlag := decide (a - b = 0), greaterFlag := decide (a - b > 0) } := by
  have h : ((0 : Int) = a - b) = (a - b = 0) := propext eq_comm
  simp [Instructions.cmp, getValue, pySub, ok_bind, h]

/-- C10: after every execution of `cmp` the Equal and Greater flags are never
both true: the compare succeeds and the conjunction of the two resulting
flags is false for all operand values a and b. -/
theorem cmp_flags_mutually_exclusive (st : CPUState) (a b : Int) :
    ∃ st1, Instructions.cmp st (.lit (.int a)) (.lit (.int b)) = .ok st1 ∧
      (st1.equalFlag && st1.greaterFlag) = false := by
  refine ⟨_, rfl, ?_⟩
  by_cases h : (0 : Int) = a - b
  · simp [← h]
  · simp [h]

/-- C3: for every combination of the flags, each conditional jump sets IC to
the operand value exactly under its stated condition and otherwise leaves
the state unchanged: `je` iff Equal, `jne` iff not Equal, `jg` iff Greater
and not Equal, `jl` iff not Greater and not Equal, `jle` iff not Greater or
Equal, `jge` iff Greater or Equal. -/
theorem conditional_jump_semantics (st : CPUState) (t : Int) :
    Instructions.je st (.lit (.int t)) =
      .ok (if st.equalFlag then { st with ic := t } else st) ∧
    Instructions.jne st (.lit (.int t)) =
      .ok (if st.equalFlag then st else { st with ic := t }) ∧
    Instructions.jg st (.lit (.int t)) =
      .ok (if st.greaterFlag && !st.equalFlag then { st with ic := t } else st) ∧
    Instructions.jl st (.lit (.int t)) =
      .ok (if !st.greaterFlag && !st.equalFlag then { st with ic := t } else st) ∧
    Instructions.jle st (.lit (.int t)) =
      .ok (if !st.greaterFlag || st.equalFlag then { st with ic := t } else st) ∧
    Instructions.jge st (.lit (.int t)) =
      .ok (if st.greaterFlag || st.equalFlag then { st with ic := t } else st) := by
  cases hE : st.equalFlag <;> cases hG : st.greaterFlag <;>
    simp [Instructions.je, Instructions.jne, Instructions.jg, Instructions.jl,
      Instructions.jle, Instructions.jge, Instructions.jmp, getValue, setValue, ok_bind, hE, hG]

/-- C4: on a loop cycle that does not halt, if the executed action left IC
equal to the value recorded at fetch time then the loop increments IC by
exactly 1, and if the action changed IC the loop keeps the new value with no
additional increment. -/
theorem ic_increment_rule (st st1 : CPUState)
    (h : CPU.execute_instruction st = .ok (st1, true)) :
    CPU.loopStep st =
      .ok (true, if st1.ic = st.ic then { st1 with ic := st.ic + 1 } else st1) := by
  simp only [CPU.loopStep, h, ok_bind, CPU.loopAdjust]
  split <;> simp_all

/-- A one-cell program holding `nop` at address 0, with IC = 0. -/
def nopState : CPUState := CPU.init 1 { size := 1, mem := [Value.str "nop"] } (Memory.init 2)

/-- C4 witness: the rule applied to the concrete `nop` program, whose action
leaves IC untouched, so the loop advances IC from 0 to 1. -/
theorem ic_increment_rule_witness :
    CPU.loopStep nopState =
      .ok (true, if nopState.ic = nopState.ic then { nopState with ic := nopState.ic + 1 }
        else nopState) :=
  ic_increment_rule nopState nopState rfl

/-- A two-cell program memory where the loader wrote `"nop"` at address 0 and
never wrote cell 1, which therefore still holds the integer 0 of
`Memory.__init__`. -/
def c1Memory : Memory := { size := 2, mem := [Value.str "nop", Value.int 0] }

/-- The machine over `c1Memory` with IC = 1, about to fetch the unwritten cell. -/
def c1State : CPUState := { CPU.init 1 c1Memory (Memory.init 2) with ic := 1 }

/-- C1 (the code contradicts the claim): `c1Memory` is exactly what one
loader write to a fresh zero-initialized memory produces; its never-written
cell 1 holds the integer 0, not the `None` that the `is not None` test of
`CPU.execute_instruction` treats as the normal-halt sentinel, so fetching it
does not stop the run: the cell is handed on toward decoding and the `split`
attribute access on an integer raises a fatal AttributeError. -/
theorem unwritten_cell_fetch_raises :
    (Memory.init 2).set_mem 0 (.str "nop") = .ok c1Memory ∧
    c1Memory.get_mem 1 = .ok (.int 0) ∧
    CPU.execute_instruction c1State = .error CPU.attrSplitMsg :=
  ⟨rfl, rfl, rfl⟩

/-- C6: `div a, b` with a register destination holding value a: a zero
divisor raises the fatal ZeroDivisionError inside the division expression,
before `set_value` runs, so the destination is not written; a nonzero
divisor stores the integer floor-division of a by b into the destination. -/
theorem div_semantics (st : CPUState) (i : Nat) (a b : Int)
    (ha : st.registers.getD i (Value.int 0) = .int a) :
    (b = 0 → Instructions.div st (.reg i) (.lit (.int b)) = .error zeroDivMsg) ∧
    (b ≠ 0 → Instructions.div st (.reg i) (.lit (.int b)) =
      .ok { st with registers := st.registers.set i (.int (Int.fdiv a b)) }) := by
  have ha2 : st.registers[i]?.getD (Value.int 0) = Value.int a := by
    simpa [List.getD] using ha
  constructor
  · intro hb
    simp [Instructions.div, getValue, setValue, pyFloorDiv, ok_bind, error_bind, List.getD, ha2, hb]
  · intro hb
    simp [Instructions.div, getValue, setValue, pyFloorDiv, ok_bind, error_bind, List.getD, ha2, hb]

/-- C6 witness: on the concrete fresh machine, `div R0, #0` fails with the
arithmetic error and `div R0, #2` stores `0 // 2` into register 0. -/
theorem div_semantics_witness :
    Instructions.div sampleState (.reg 0) (.lit (.int 0)) = .error zeroDivMsg ∧
    Instructions.div sampleState (.reg 0) (.lit (.int 2)) =
      .ok { sampleState with registers := sampleState.registers.set 0 (.int (Int.fdiv 0 2)) } :=
  ⟨(div_semantics sampleState 0 0 0 rfl).1 rfl,
   (div_semantics sampleState 0 0 2 rfl).2 (by decide)⟩

/-- C5 counterexample: from the freshly initialized machine, whose SP is 3
and lies inside [0, stackSize - 1] = [0, 3], the single decoded instruction
`set SP, #-5` executes with no failure of any kind and leaves SP = -5,
outside the bound: not every operation preserves the `[0, stackSize - 1]`
invariant, because `decode_operand` hands out the stack pointer as a plainly
writable operand whose `set_value` performs no range check. -/
theorem sp_bound_counterexample :
    sampleState.sp = 3 ∧ sampleState.spMax = 3 ∧
    CPU.decode_instruction sampleState "set SP, #-5" =
      .ok ({ sampleState with sp := -5 }, true) ∧
    ({ sampleState with sp := -5 }).sp < 0 :=
  ⟨rfl, rfl, rfl, by decide⟩

/-- C5 (amended): SP is initialized to stackSize - 1 with that maximum
recorded; from any in-bound SP, `push` onto a full stack (SP = 0) fails as a
fatal overflow and otherwise decrements SP within the bound, while `pop`
from an empty stack (SP = spMax) fails as a fatal mismatch and otherwise
increments SP within the bound.  (Direct writes through the SP operand are
exactly what the counterexample shows escapes the bound.) -/
theorem sp_push_pop_discipline (msize regs : Nat) (st : CPUState)
    (h1 : 0 ≤ st.sp) (h2 : st.sp ≤ st.spMax) :
    (CPU.init regs (Memory.init msize) (Memory.init msize)).sp = (msize : Int) - 1 ∧
    (CPU.init regs (Memory.init msize) (Memory.init msize)).spMax = (msize : Int) - 1 ∧
    (st.sp = 0 → StackPointer.push st = .error (StackPointer.overflowMsg (-1))) ∧
    (0 < st.sp → StackPointer.push st = .ok { st with sp := st.sp - 1 } ∧
      0 ≤ st.sp - 1 ∧ st.sp - 1 ≤ st.spMax) ∧
    (st.sp = st.spMax →
      StackPointer.pop st = .error (StackPointer.mismatchMsg st.spMax (st.sp + 1))) ∧
    (st.sp < st.spMax → StackPointer.pop st = .ok { st with sp := st.sp + 1 } ∧
      0 ≤ st.sp + 1 ∧ st.sp + 1 ≤ st.spMax) := by
  refine ⟨rfl, rfl, ?_, ?_, ?_, ?_⟩
  · intro hsp
    rw [StackPointer.push, if_pos (by omega), hsp]
    norm_num
  · intro hsp
    exact ⟨by rw [StackPointer.push, if_neg (by omega)], by omega, by omega⟩
  · intro hsp
    rw [StackPointer.pop, if_pos (by omega)]
  · intro hsp
    exact ⟨by rw [StackPointer.pop, if_neg (by omega)], by omega, by omega⟩

/-- C5 witness: the discipline applied at the concrete fresh machine: a push
from SP = 0 overflows fatally and a pop from SP = spMax fails fatally. -/
theorem sp_push_pop_discipline_witness :
    StackPointer.push { sampleState with sp := 0 } =
      .error (StackPointer.overflowMsg (-1)) ∧
    StackPointer.pop sampleState =
      .error (StackPointer.mismatchMsg sampleState.spMax (sampleState.sp + 1)) :=
  ⟨(sp_push_pop_discipline 4 2 { sampleState with sp := 0 }
      (by decide) (by decide)).2.2.1 rfl,
   (sp_push_pop_discipline 4 2 sampleState (by decide) (by decide)).2.2.2.2.1 rfl⟩

/-- The fresh machine with SP forced to 4 = stackSize, one past its
documented maximum of 3 (a state reachable only by writing SP directly,
which `sp_bound_counterexample` shows the instruction set permits). -/
def c7State : CPUState := { sampleState with sp := 4 }

/-- The state `c7State` reaches after a successful `push` of the value 7. -/
def c7Pushed : CPUState :=
  { c7State with
    sp := 3
    stack := { size := 4, mem := [Value.int 0, Value.int 0, Value.int 0, Value.int 7] } }

/-- C7 counterexample: in `c7State` the push of 7 succeeds (SP moves to 3 and
the value lands in the stack), yet the immediately following pop fails with
the fatal stack mismatch instead of completing the round trip, so "push
succeeds" alone does not guarantee the pop restores SP. -/
theorem push_pop_roundtrip_counterexample :
    Instructions.push c7State (.lit (.int 7)) = .ok c7Pushed ∧
    Instructions.pop c7Pushed (.reg 0) = .error (StackPointer.mismatchMsg 3 4) :=
  ⟨rfl, rfl⟩

/-- C7 (amended): in every state whose SP also respects its documented upper
bound (so the push succeeds and SP stays meaningful), `push v` immediately
followed by `pop` into a valid register restores SP to its value before the
push, stores exactly v into the destination, and leaves IC, program memory
and the flags untouched. -/
theorem push_pop_roundtrip (st : CPUState) (v : Value) (d : Nat)
    (h1 : 1 ≤ st.sp) (h2 : st.sp ≤ st.spMax)
    (h3 : st.spMax = (st.stack.size : Int) - 1)
    (h4 : st.stack.mem.length = st.stack.size)
    (h5 : d < st.registers.length) :
    ∃ st2,
      (Instructions.push st (.lit v) >>= fun st1 => Instructions.pop st1 (.reg d)) = .ok st2 ∧
      st2.sp = st.sp ∧
      st2.registers.getD d (Value.int 0) = v ∧
      st2.ic = st.ic ∧ st2.memory = st.memory ∧
      st2.equalFlag = st.equalFlag ∧ st2.greaterFlag = st.greaterFlag := by
  have c1 : ¬ (st.sp - 1 < 0) := by omega
  have c2 : ¬ (st.sp - 1 > (st.stack.size : Int) - 1) := by omega
  have c3 : ¬ (st.sp - 1 + 1 > st.spMax) := by omega
  have hread : (st.stack.mem.set (st.sp - 1).toNat v).getD (st.sp - 1).toNat (Value.int 0)
      = v := by
    rw [List.getD_eq_getElem _ _ (by simp; omega)]
    simp
  refine ⟨{ st with
      sp := st.sp - 1 + 1
      stack := { st.stack with mem := st.stack.mem.set (st.sp - 1).toNat v }
      registers := st.registers.set d v }, ?_, by simp, ?_, rfl, rfl, rfl, rfl⟩
  · simp only [Instructions.push, Instructions.pop, StackPointer.push, StackPointer.pop,
      Memory.set_mem, Memory.get_mem, getValue, setValue, ok_bind,
      if_neg c1, if_neg c2, if_neg c3, hread]
  · simp [List.getD_eq_getElem, h5]

/-- C7 witness: the amended round trip on the concrete fresh machine with
value 7 and destination register 0. -/
theorem push_pop_roundtrip_witness :
    ∃ st2,
      (Instructions.push sampleState (.lit (.int 7)) >>=
        fun st1 => Instructions.pop st1 (.reg 0)) = .ok st2 ∧
      st2.sp = sampleState.sp ∧
      st2.registers.getD 0 (Value.int 0) = .int 7 ∧
      st2.ic = sampleState.ic ∧ st2.memory = sampleState.memory ∧
      st2.equalFlag = sampleState.equalFlag ∧ st2.greaterFlag = sampleState.greaterFlag :=
  push_pop_roundtrip sampleState (.int 7) 0 (by decide) (by decide) (by decide)
    (by decide) (by decide)

/-- C8: executing `call` in a state whose IC is a (with room on the stack)
pushes the literal a + 1 onto the stack as the return address and sets IC to
the operand value; a later `ret` reached at any address r pops that return
address into IC and restores SP, and because the ret changed IC (r is not
a + 1) the loop adjustment leaves the new IC untouched, so execution resumes
at the instruction immediately after the call. -/
theorem call_ret_return_address (st : CPUState) (a t r : Int)
    (hic : st.ic = a)
    (h1 : 1 ≤ st.sp) (h2 : st.sp ≤ st.spMax)
    (h3 : st.spMax = (st.stack.size : Int) - 1)
    (h4 : st.stack.mem.length = st.stack.size)
    (h5 : r ≠ a + 1) :
    ∃ st1 st2,
      Instructions.call st (.lit (.int t)) = .ok st1 ∧
      st1.ic = t ∧ st1.sp = st.sp - 1 ∧
      st1.stack.get_mem st1.sp = .ok (.int (a + 1)) ∧
      Instructions.ret { st1 with ic := r } = .ok st2 ∧
      st2.ic = a + 1 ∧ st2.sp = st.sp ∧
      CPU.loopAdjust r st2 = st2 := by
  subst hic
  have c1 : ¬ (st.sp - 1 < 0) := by omega
  have c2 : ¬ (st.sp - 1 > (st.stack.size : Int) - 1) := by omega
  have c3 : ¬ (st.sp - 1 + 1 > st.spMax) := by omega
  have hread : (st.stack.mem.set (st.sp - 1).toNat (Value.int (st.ic + 1))).getD
      (st.sp - 1).toNat (Value.int 0) = Value.int (st.ic + 1) := by
    rw [List.getD_eq_getElem _ _ (by simp; omega)]
    simp
  refine ⟨{ st with
      sp := st.sp - 1
      stack := { st.stack with mem := st.stack.mem.set (st.sp - 1).toNat (.int (st.ic + 1)) }
      ic := t },
    { st with
      sp := st.sp - 1 + 1
      stack := { st.stack with mem := st.stack.mem.set (st.sp - 1).toNat (.int (st.ic + 1)) }
      ic := st.ic + 1 }, ?_, rfl, rfl, ?_, ?_, rfl, by simp, ?_⟩
  · simp only [Instructions.call, Instructions.push, Instructions.jmp, StackPointer.push,
      Memory.set_mem, getValue, setValue, ok_bind, if_neg c1, if_neg c2]
  · simp only [Memory.get_mem, if_neg c1, if_neg c2, hread]
  · simp only [Instructions.ret, Instructions.pop, StackPointer.pop, Memory.get_mem,
      getValue, setValue, ok_bind, if_neg c1, if_neg c2, if_neg c3, hread]
  · rw [CPU.loopAdjust, if_neg (by simpa using Ne.symm h5)]

/-- C8 witness: the call and return applied on the concrete fresh machine,
calling target 9 from address 0 with the ret reached at address 7. -/
theorem call_ret_return_address_witness :
    ∃ st1 st2,
      Instructions.call sampleState (.lit (.int 9)) = .ok st1 ∧
      st1.ic = 9 ∧ st1.sp = sampleState.sp - 1 ∧
      st1.stack.get_mem st1.sp = .ok (.int (0 + 1)) ∧
      Instructions.ret { st1 with ic := 7 } = .ok st2 ∧
      st2.ic = 0 + 1 ∧ st2.sp = sampleState.sp ∧
      CPU.loopAdjust 7 st2 = st2 :=
  call_ret_return_address sampleState 0 9 7 rfl (by decide) (by decide) (by decide)
    (by decide) (by decide)

/-- C9: operand decoding applies the addressing-mode rules in the stated
precedence: a token present in the label table resolves to an immediate
literal holding its address before any other rule is consulted (even if the
token is `SP`, `IC` or shaped like a register or memory token); when no
label matches, the reserved tokens `SP` and `IC` resolve to the stack
pointer and instruction counter; and a token matching no label, neither
reserved word and none of the `R`, `#`, `"`, `M` first-character rules fails
with the unrecognized-operand error that names the token. -/
theorem decode_operand_precedence (st : CPUState) (op : String) (addr : Int) :
    (CPU.lookupLabel st.labels op = some addr →
      CPU.decode_operand st op = .ok (.lit (.int addr))) ∧
    (CPU.lookupLabel st.labels op = .none → op = "SP" →
      CPU.decode_operand st op = .ok .sp) ∧
    (CPU.lookupLabel st.labels op = .none → op = "IC" →
      CPU.decode_operand st op = .ok .ic) ∧
    (CPU.lookupLabel st.labels op = .none → op ≠ "SP" → op ≠ "IC" →
      strTake1 op ≠ "R" → strTake1 op ≠ "#" → strTake1 op ≠ "\"" → strTake1 op ≠ "M" →
      CPU.decode_operand st op = .error (CPU.cantDecodeMsg op)) := by
  refine ⟨fun h => ?_, fun h hsp => ?_, fun h hic => ?_,
    fun h hsp hic hR hH hQ hM => ?_⟩
  · simp [CPU.decode_operand, h]
  · subst hsp
    simp [CPU.decode_operand, h]
  · subst hic
    simp [CPU.decode_operand, h]
  · simp [CPU.decode_operand, h, hsp, hic, hR, hH, hQ, hM]

/-- The fresh machine with a label table binding `loop` to 5 and also, to
exhibit the precedence, a label literally named `SP` bound to 9. -/
def labeledState : CPUState :=
  { sampleState with labels := [("loop", 5), ("SP", 9)] }

/-- C9 witness: with a label named `SP` in the table, the token `SP` decodes
to the label address literal, not to the stack pointer (labels are checked
first); and an unmatched token fails with the error naming it. -/
theorem decode_operand_precedence_witness :
    CPU.decode_operand labeledState "SP" = .ok (.lit (.int 9)) ∧
    CPU.decode_operand labeledState "xyz" = .error (CPU.cantDecodeMsg "xyz") :=
  ⟨(decode_operand_precedence labeledState "SP" 9).1 rfl,
   (decode_operand_precedence labeledState "xyz" 0).2.2.2 rfl (by decide) (by decide)
     (by decide) (by decide) (by decide) (by decide)⟩

end VCPU
